import Mathlib

/-!
Verification development for `opencensus_demo/main.py`, a single-file
demonstration program that resolves a Google Cloud project identifier,
builds a three-span trace tree (`root` calling `foo` calling `bar`) in an
endless once-per-second loop, and records one latency measurement per loop
iteration.

The Python source is shallowly embedded below: the project-resolution logic
of `init` becomes a total function over the possible outcomes of
`google.auth.default()` and of the environment lookup; the arithmetic of
`root`, `foo` and `bar` is carried out over the rationals with the
`timedelta.microseconds` normalization made explicit; the measurement-map
calls of `root` become explicit list-building operations; and the driver
loop of `main` becomes a step function together with per-iteration event
lists.
-/

namespace OpencensusDemo

/-- Outcome of the call `google.auth.default()` in `init` (main.py line 52):
either it succeeds and returns a pair whose second component is the resolved
project identifier (which may itself be `None`), or it raises
`DefaultCredentialsError`. -/
inductive CredResult where
  | ok (project : Option String)
  | defaultCredentialsError
  deriving DecidableEq

/-- Observable outcome of the project-resolution part of `init`
(main.py lines 49-73): the value assigned to the global `project_id`,
whether the `GCP_PROJECT_ID` environment variable was consulted, whether the
`ValueError` of the `except KeyError` branch was raised, and whether control
reached the exporter-construction calls that follow. -/
structure InitOutcome where
  projectId : Option String
  envConsulted : Bool
  raisedValueError : Bool
  exporterCallsReached : Bool
  deriving DecidableEq

/-- Embedding of the `try`/`except` block of `init` (main.py lines 51-58).
On success of `google.auth.default()` the returned project is assigned and
the environment is never read.  On `DefaultCredentialsError` the code runs
`project_id = os.environ.get("GCP_PROJECT_ID")`; `os.environ.get` returns
the variable's value, or `None` when the variable is unset, and never raises
`KeyError`, so the `except KeyError` branch that would raise `ValueError`
never fires and control always proceeds to the exporter calls of lines
62-71. -/
def resolveProject (cred : CredResult) (env : Option String) : InitOutcome :=
  match cred with
  | CredResult.ok p =>
      { projectId := p, envConsulted := false,
        raisedValueError := false, exporterCallsReached := true }
  | CredResult.defaultCredentialsError =>
      { projectId := env, envConsulted := true,
        raisedValueError := false, exporterCallsReached := true }

/-- Whether an optional project identifier is a non-empty string. -/
def isNonEmptyProjectId : Option String → Bool
  | none => false
  | some s => !s.isEmpty

/-- Rendering of the global `project_id` inside the f-string of main.py
line 101: Python renders the value `None` as the text `None`. -/
def pythonStr : Option String → String
  | none => "None"
  | some s => s

/-- The span resource name synthesized in `root` (main.py line 101). -/
def spanName (projectId traceId spanId : String) : String :=
  "projects/" ++ projectId ++ "/traces/" ++ traceId ++ "/spans/" ++ spanId

/-- The `microseconds` attribute of a Python `timedelta` whose total length
is `total` microseconds: `timedelta` is kept normalized with
`0 <= microseconds < 10^6` (days may be negative), so the attribute is the
floor-modulus of the total by one million. -/
def timedeltaMicroseconds (total : ℤ) : ℤ :=
  total % 1000000

/-- The latency value computed in `root` (main.py line 106):
`ms = (end - start).microseconds / 1000.0`, for an elapsed time of `total`
microseconds. -/
def recordedLatencyMs (total : ℤ) : ℚ :=
  (timedeltaMicroseconds total : ℚ) / 1000

/-- The true elapsed time in milliseconds of an elapsed `total`
microseconds. -/
def elapsedMs (total : ℤ) : ℚ :=
  (total : ℚ) / 1000

/-- Name of the measure `m_latency_ms` (main.py line 34). -/
def mLatencyName : String := "task_latency"

/-- Description of the measure `m_latency_ms` (main.py line 34). -/
def mLatencyDescription : String := "The task latency in milliseconds"

/-- State of the measurement map obtained from
`stats_recorder.new_measurement_map()` (main.py line 93): the pending
`measure_float_put` entries (measure name and value, in call order) and the
pending `measure_put_attachment` entries (key and value, in call order). -/
structure MMap where
  puts : List (String × ℚ)
  attachments : List (String × String)
  deriving DecidableEq

/-- A fresh measurement map holds no entries. -/
def newMeasurementMap : MMap :=
  { puts := [], attachments := [] }

/-- `mmap.measure_float_put(measure, value)` appends one value entry. -/
def measureFloatPut (m : MMap) (measureName : String) (v : ℚ) : MMap :=
  { m with puts := m.puts ++ [(measureName, v)] }

/-- `mmap.measure_put_attachment(key, value)` appends one attachment. -/
def measurePutAttachment (m : MMap) (k v : String) : MMap :=
  { m with attachments := m.attachments ++ [(k, v)] }

/-- The measurement map as `root` submits it to `mmap.record()`
(main.py lines 93 and 108-114): one `measure_float_put` of the latency
value, then the `@type` attachment, then the span-name attachment under the
key `value`. -/
def rootMMap (totalMicros : ℤ) (name : String) : MMap :=
  measurePutAttachment
    (measurePutAttachment
      (measureFloatPut newMeasurementMap mLatencyName
        (recordedLatencyMs totalMicros))
      "@type" "type.googleapis.com/google.monitoring.v3.SpanContext")
    "value" name

/-- Observable outcome of one call to `root` (main.py lines 92-114): the
synthesized span resource name and the list of measurement maps submitted
through `mmap.record()` (the function builds one map and records it once). -/
structure RootResult where
  spanName : String
  recorded : List MMap
  deriving DecidableEq

/-- Embedding of `root` (main.py lines 92-114), parameterized over the
global `project_id`, the trace and span identifiers handed out by the
tracing SDK, and the elapsed wall-clock time in microseconds between the
two `datetime.datetime.now()` calls. -/
def root (projectId : Option String) (traceId spanId : String)
    (totalMicros : ℤ) : RootResult :=
  let name := spanName (pythonStr projectId) traceId spanId
  { spanName := name, recorded := [rootMMap totalMicros name] }

/-- The wait computed in `foo` (main.py line 119):
`ms = random.random() * 2 * 1000` for a drawn value `r`. -/
def fooWaitMs (r : ℚ) : ℚ := r * 2 * 1000

/-- The wait computed in `bar` (main.py line 129):
`ms = random.random() * 1 * 1000` for a drawn value `r`. -/
def barWaitMs (r : ℚ) : ℚ := r * 1 * 1000

/-- The conversion `sec = ms / 1000` applied before each `time.sleep(sec)`
(main.py lines 123-124 and 132-133). -/
def sleepSeconds (ms : ℚ) : ℚ := ms / 1000

/-- The duration, in seconds, that `foo` passes to `time.sleep`. -/
def fooSleepSec (r : ℚ) : ℚ := sleepSeconds (fooWaitMs r)

/-- The duration, in seconds, that `bar` passes to `time.sleep`. -/
def barSleepSec (r : ℚ) : ℚ := sleepSeconds (barWaitMs r)

/-- The observable actions of one iteration of the `while True` loop of
`main` (main.py lines 79-89). -/
inductive Event where
  | openTrace
  | runSpanTree
  | closeTrace
  | sleepSec (s : ℚ)
  deriving DecidableEq

/-- The loop guard of `main` (main.py line 79): the literal `True`. -/
def loopCondition : Bool := true

/-- The actions of one loop iteration of `main`, in program order:
construct a `Tracer` (opening a new trace), call `root` (run the span
tree), call `tracer.finish()` (close the trace), then `time.sleep(1.0)`.
The sleep is the literal `1.0` and does not depend on how long the span
tree ran, so the event list ignores its `treeDurationSec` argument. -/
def loopIterationEvents (_treeDurationSec : ℚ) : List Event :=
  [Event.openTrace, Event.runSpanTree, Event.closeTrace, Event.sleepSec 1]

/-- One evaluation of the loop guard of `main` at the start of iteration
`n`: `some (n + 1)` means the guard held and the body runs, continuing to
the next iteration; `none` would mean the guard failed and the loop
exited. -/
def loopStep (n : ℕ) : Option ℕ :=
  if loopCondition then some (n + 1) else none

/-- The process-wide mutable state of the script: the single global
`project_id` (main.py line 46). -/
structure ProcState where
  projectId : Option String
  deriving DecidableEq

/-- The assignment `init` performs on the global `project_id`
(main.py lines 50-58). -/
def initAssign (cred : CredResult) (env : Option String)
    (s : ProcState) : ProcState :=
  { s with projectId := (resolveProject cred env).projectId }

/-- The per-iteration inputs the SDK environment supplies to one loop body:
the identifiers of the freshly opened trace and span and the elapsed time
measured around the root span. -/
structure IterInput where
  traceId : String
  spanId : String
  totalMicros : ℤ

/-- One body of the `while True` loop of `main` (main.py lines 80-89) as a
state transformer on the process-wide state: `root` declares
`global project_id` but only reads it (in the f-string of line 101), and
`foo` and `bar` never mention it, so the state comes back unchanged. -/
def loopBody (inp : IterInput) (s : ProcState) : RootResult × ProcState :=
  (root s.projectId inp.traceId inp.spanId inp.totalMicros, s)

/-- `n` consecutive iterations of the loop of `main`, fed by a stream of
per-iteration inputs. -/
def loopRun (ins : ℕ → IterInput) : ℕ → ProcState → ProcState
  | 0, s => s
  | n + 1, s => loopRun ins n (loopBody (ins n) s).2

/-- Helper: running the loop never changes the process-wide state, because
each body returns the state it was given. -/
theorem loopRun_projectId (ins : ℕ → IterInput) (n : ℕ) (s : ProcState) :
    (loopRun ins n s).projectId = s.projectId := by
  induction n generalizing s with
  | zero => rfl
  | succ k ih => exact ih s

/-- Claim C3: for every project identifier, trace identifier and span
identifier, the resource name synthesized in `root` is the concatenation
of the literal pattern pieces, and on the sample inputs it yields the
documented string. -/
theorem spanName_matches_pattern :
    (∀ pid tid sid : String,
        spanName pid tid sid =
          "projects/" ++ pid ++ "/traces/" ++ tid ++ "/spans/" ++ sid) ∧
    spanName "demo" "abc123" "def456" =
      "projects/demo/traces/abc123/spans/def456" := by
  exact ⟨fun pid tid sid => rfl, rfl⟩

/-- Claim C7: when ambient credential discovery succeeds its project is
used and the environment variable is never consulted; the variable is
consulted exactly when discovery raises `DefaultCredentialsError`. -/
theorem cred_success_env_not_consulted :
    (∀ (p : Option String) (env : Option String),
        (resolveProject (CredResult.ok p) env).envConsulted = false ∧
        (resolveProject (CredResult.ok p) env).projectId = p) ∧
    (∀ env : Option String,
        (resolveProject CredResult.defaultCredentialsError env).envConsulted
          = true) := by
  exact ⟨fun p env => ⟨rfl, rfl⟩, fun env => rfl⟩

/-- Claim C2 (the code contradicts it): with ambient discovery raising
`DefaultCredentialsError` and `GCP_PROJECT_ID` unset, `init` does not raise
`ValueError`; `os.environ.get` returns `None`, the `except KeyError` branch
never fires on any input, and startup proceeds to the exporter calls with
`project_id = None`. -/
theorem init_env_fallback_never_raises :
    (resolveProject CredResult.defaultCredentialsError none).raisedValueError
        = false ∧
    (resolveProject CredResult.defaultCredentialsError none).projectId
        = none ∧
    (resolveProject CredResult.defaultCredentialsError
        none).exporterCallsReached = true ∧
    ∀ (cred : CredResult) (env : Option String),
      (resolveProject cred env).raisedValueError = false := by
  refine ⟨rfl, rfl, rfl, fun cred env => ?_⟩
  cases cred <;> rfl

/-- Claim C5 (the code contradicts it): in the path where credentials are
absent and `GCP_PROJECT_ID` is unset, `init` still reaches the exporter
calls while the global `project_id` is `None`, hence not a non-empty
string. -/
theorem init_missing_both_proceeds_without_project :
    (resolveProject CredResult.defaultCredentialsError
        none).exporterCallsReached = true ∧
    isNonEmptyProjectId
        (resolveProject CredResult.defaultCredentialsError none).projectId
      = false := by
  exact ⟨rfl, rfl⟩

/-- Claim C1 (the code contradicts it): the measure is documented as the
task latency in milliseconds, yet for a root span tree that ran 1.5 seconds
(1500000 microseconds elapsed) the code records
`(end - start).microseconds / 1000.0 = 500`, not the total wall-clock
duration of 1500 milliseconds. -/
theorem root_latency_drops_whole_seconds :
    mLatencyDescription = "The task latency in milliseconds" ∧
    elapsedMs 1500000 = 1500 ∧
    recordedLatencyMs 1500000 = 500 ∧
    recordedLatencyMs 1500000 ≠ elapsedMs 1500000 := by
  refine ⟨rfl, ?_, ?_, ?_⟩
  · norm_num [elapsedMs]
  · norm_num [recordedLatencyMs, timedeltaMicroseconds]
  · norm_num [recordedLatencyMs, timedeltaMicroseconds, elapsedMs]

/-- Claim C10: the value recorded by `root` always lies in `[0, 1000)`
milliseconds, and whenever the true elapsed time is at least one second it
equals the elapsed time modulo one second and differs from the true elapsed
time. -/
theorem recorded_latency_modulo_one_second (total : ℤ) :
    (0 ≤ recordedLatencyMs total ∧ recordedLatencyMs total < 1000) ∧
    (1000000 ≤ total →
      recordedLatencyMs total = elapsedMs (total % 1000000) ∧
      recordedLatencyMs total ≠ elapsedMs total) := by
  have hmodnn : (0:ℤ) ≤ total % 1000000 :=
    Int.emod_nonneg total (by norm_num)
  have hmodlt : total % 1000000 < 1000000 :=
    Int.emod_lt_of_pos total (by norm_num)
  refine ⟨⟨?_, ?_⟩, ?_⟩
  · unfold recordedLatencyMs timedeltaMicroseconds
    apply div_nonneg _ (by norm_num)
    exact_mod_cast hmodnn
  · unfold recordedLatencyMs timedeltaMicroseconds
    rw [div_lt_iff₀ (by norm_num : (0:ℚ) < 1000)]
    have hq : ((total % 1000000 : ℤ) : ℚ) < 1000000 := by exact_mod_cast hmodlt
    linarith
  · intro h
    refine ⟨rfl, ?_⟩
    intro heq
    have hlt : total % 1000000 < total := lt_of_lt_of_le hmodlt h
    unfold recordedLatencyMs timedeltaMicroseconds elapsedMs at heq
    have hcast : (total % 1000000 : ℤ) = total := by
      field_simp at heq
      exact_mod_cast heq
    omega

/-- Witness for `recorded_latency_modulo_one_second` at an elapsed time of
1.5 seconds. -/
theorem recorded_latency_modulo_one_second_witness :
    (1000000 ≤ (1500000:ℤ)) ∧
    (recordedLatencyMs 1500000 = elapsedMs (1500000 % 1000000) ∧
      recordedLatencyMs 1500000 ≠ elapsedMs 1500000) :=
  ⟨by norm_num,
    (recorded_latency_modulo_one_second 1500000).2 (by norm_num)⟩

/-- Claim C4: each call to `root` (one per loop iteration) records exactly
one measurement map, carrying a single non-negative latency value under the
measure name and exactly the two string attachments: the type tag and the
constructed span resource name. -/
theorem root_one_sample_two_attachments (pid : Option String)
    (tid sid : String) (total : ℤ) :
    (root pid tid sid total).recorded =
      [rootMMap total (spanName (pythonStr pid) tid sid)] ∧
    (rootMMap total (spanName (pythonStr pid) tid sid)).puts =
      [(mLatencyName, recordedLatencyMs total)] ∧
    0 ≤ recordedLatencyMs total ∧
    (rootMMap total (spanName (pythonStr pid) tid sid)).attachments =
      [("@type", "type.googleapis.com/google.monitoring.v3.SpanContext"),
       ("value", spanName (pythonStr pid) tid sid)] := by
  refine ⟨rfl, rfl, ?_, rfl⟩
  unfold recordedLatencyMs timedeltaMicroseconds
  apply div_nonneg _ (by norm_num)
  exact_mod_cast Int.emod_nonneg total (by norm_num)

/-- Claim C6: for a drawn value `r` in `[0, 1)`, `foo` computes a wait of
`r * 2000` milliseconds, hence in `[0, 2000)`, `bar` computes `r * 1000`
milliseconds, hence in `[0, 1000)`, and each sleeps exactly that wait
divided by 1000 seconds. -/
theorem foo_bar_sleep_durations (r : ℚ) (h0 : 0 ≤ r) (h1 : r < 1) :
    fooWaitMs r = r * 2000 ∧ 0 ≤ fooWaitMs r ∧ fooWaitMs r < 2000 ∧
    barWaitMs r = r * 1000 ∧ 0 ≤ barWaitMs r ∧ barWaitMs r < 1000 ∧
    fooSleepSec r = fooWaitMs r / 1000 ∧
    barSleepSec r = barWaitMs r / 1000 := by
  refine ⟨by unfold fooWaitMs; ring, ?_, ?_,
    by unfold barWaitMs; ring, ?_, ?_, rfl, rfl⟩
  · unfold fooWaitMs; nlinarith
  · unfold fooWaitMs; nlinarith
  · unfold barWaitMs; nlinarith
  · unfold barWaitMs; nlinarith

/-- Witness for `foo_bar_sleep_durations` at the drawn value one half. -/
theorem foo_bar_sleep_durations_witness :
    ((0:ℚ) ≤ 1/2 ∧ (1/2:ℚ) < 1) ∧
    (fooWaitMs (1/2) = (1/2) * 2000 ∧ 0 ≤ fooWaitMs (1/2) ∧
      fooWaitMs (1/2) < 2000 ∧
      barWaitMs (1/2) = (1/2) * 1000 ∧ 0 ≤ barWaitMs (1/2) ∧
      barWaitMs (1/2) < 1000 ∧
      fooSleepSec (1/2) = fooWaitMs (1/2) / 1000 ∧
      barSleepSec (1/2) = barWaitMs (1/2) / 1000) :=
  ⟨⟨by norm_num, by norm_num⟩,
    foo_bar_sleep_durations (1/2) (by norm_num) (by norm_num)⟩

/-- Claim C8: the loop guard of `main` holds at every iteration, so no
iteration reaches the loop's exit, and every iteration performs, in order,
open trace, run the span tree, close trace, then a fixed sleep of exactly
one second regardless of how long the span tree ran. -/
theorem main_loop_never_exits (n : ℕ) (d : ℚ) :
    loopStep n = some (n + 1) ∧ loopStep n ≠ none ∧
    loopIterationEvents d =
      [Event.openTrace, Event.runSpanTree, Event.closeTrace,
       Event.sleepSec 1] := by
  refine ⟨?_, ?_, rfl⟩
  · simp [loopStep, loopCondition]
  · simp [loopStep, loopCondition]

/-- Claim C9: `init` is the only writer of the global `project_id`; each
loop body only reads it, so after any number of iterations the state still
holds the value `init` assigned. -/
theorem project_id_assigned_once (cred : CredResult) (env : Option String)
    (s0 : ProcState) (ins : ℕ → IterInput) (n : ℕ) :
    (initAssign cred env s0).projectId =
      (resolveProject cred env).projectId ∧
    (∀ (inp : IterInput) (s : ProcState), (loopBody inp s).2 = s) ∧
    (loopRun ins n (initAssign cred env s0)).projectId =
      (resolveProject cred env).projectId := by
  refine ⟨rfl, fun inp s => rfl, ?_⟩
  rw [loopRun_projectId]
  rfl

end OpencensusDemo
